import Mathlib

/-!
Shallow embedding of `src/garden_advice.py` (seasonal gardening advice).

The Python module consists of constant tables (`SEASONS_NH`, `MONTHLY_TIPS_NH`,
`HEMISPHERE_SHIFT_MONTHS`), a module-level initialization of a tip table
`MONTHLY_TIPS` from an external JSON file with a built-in fallback, and four
functions: `adjust_month`, `get_season`, `get_monthly_tip`,
`get_gardening_advice`.

Python dictionaries with distinct literal keys are embedded as association
lists with `List.lookup`; `dict.get(k, d)` becomes
`(l.lookup k).getD d`.  Python `%` on integers with a positive modulus agrees
with Lean `Int.emod` (both always yield a non-negative result), so `%` is a
direct embedding.  The ambient current date used by `get_gardening_advice` is
passed explicitly as an argument.
-/

set_option autoImplicit false

namespace GardenAdvice

/-- Embedding of Python `str.lower()` for the ASCII strings occurring here. -/
def pyLower (s : String) : String :=
  ⟨s.data.map Char.toLower⟩

/-- Embedding of Python `str.capitalize()`: first character upper-cased, the
rest lower-cased (exact for the ASCII strings occurring here). -/
def pyCapitalize (s : String) : String :=
  match s.data with
  | [] => ""
  | c :: cs => ⟨c.toUpper :: cs.map Char.toLower⟩

/-- Embedding of Python `str.isdigit()` for ASCII strings: non-empty and all
characters are decimal digits. -/
def pyIsDigit (s : String) : Bool :=
  !s.isEmpty && s.data.all Char.isDigit

/-- Embedding of Python `int(k)` on a string of decimal digits. -/
def pyIntOfDigits (s : String) : Int :=
  Int.ofNat (s.data.foldl (fun n c => 10 * n + (c.toNat - 48)) 0)

/-- `SEASONS_NH` (lines 15-20): month number to season name, Northern
Hemisphere. -/
def SEASONS_NH : List (Int × String) :=
  [(12, "Winter"), (1, "Winter"), (2, "Winter"),
   (3, "Spring"), (4, "Spring"), (5, "Spring"),
   (6, "Summer"), (7, "Summer"), (8, "Summer"),
   (9, "Autumn"), (10, "Autumn"), (11, "Autumn")]

/-- `MONTHLY_TIPS_NH` (lines 25-38): the hardcoded Northern-Hemisphere tip
table consulted by `get_monthly_tip`. -/
def MONTHLY_TIPS_NH : List (Int × String) :=
  [(1, "Protect sensitive plants from frost. Plan your spring garden layout."),
   (2, "Start seeds indoors for tomatoes, peppers. Prune dormant trees and shrubs."),
   (3, "Plant cool-season crops: lettuce, spinach, peas, radishes. Prepare beds."),
   (4, "Sow carrots, beets, direct-seed beans. Plant perennials and new shrubs."),
   (5, "Transplant seedlings outdoors after last frost. Mulch to retain moisture."),
   (6, "Harvest early crops. Water consistently — especially during heat waves."),
   (7, "Deadhead flowers regularly. Watch for pests and fungal issues in humidity."),
   (8, "Harvest peak summer vegetables. Plant fall crops (kale, broccoli, etc.)."),
   (9, "Plant spring-flowering bulbs. Clean up garden debris and compost."),
   (10, "Divide overcrowded perennials. Protect tender plants before first frost."),
   (11, "Apply winter mulch. Clean and store tools. Order seeds for next year."),
   (12, "Rest and plan next year\x27s garden. Review notes from this season.")]

/-- The built-in fallback tip table, the literal written in the `except`
branch of the module-level initialization (lines 55-68). -/
def MONTHLY_TIPS_FALLBACK : List (Int × String) :=
  [(1, "Protect sensitive plants from frost. Plan your spring garden layout."),
   (2, "Start seeds indoors for tomatoes, peppers. Prune dormant trees and shrubs."),
   (3, "Plant cool-season crops: lettuce, spinach, peas, radishes. Prepare beds."),
   (4, "Sow carrots, beets, direct-seed beans. Plant perennials and new shrubs."),
   (5, "Transplant seedlings outdoors after last frost. Mulch to retain moisture."),
   (6, "Harvest early crops. Water consistently — especially during heat waves."),
   (7, "Deadhead flowers regularly. Watch for pests and fungal issues in humidity."),
   (8, "Harvest peak summer vegetables. Plant fall crops (kale, broccoli, etc.)."),
   (9, "Plant spring-flowering bulbs. Clean up garden debris and compost."),
   (10, "Divide overcrowded perennials. Protect tender plants before first frost."),
   (11, "Apply winter mulch. Clean and store tools. Order seeds for next year."),
   (12, "Rest and plan next year\x27s garden. Review notes from this season.")]

/-- State of the external tip source `monthly_tips.json` as seen by the
module-level `try` block (lines 43-68), abstracting the file system and the
JSON layer:

* `absent`: `os.path.exists(TIPS_FILE)` is false, so the code raises
  `FileNotFoundError`, which the `except` clause catches;
* `unreadable`: the file exists but `open`/read raises an `OSError` other
  than `FileNotFoundError` (e.g. `PermissionError`), which the `except`
  clause does not list;
* `malformed`: `json.load` raises `json.JSONDecodeError`, which is caught;
* `parsed north`: `json.load` succeeds and `data.get("north", {})` is a
  dict with the given (key, value) string pairs, in iteration order. -/
inductive TipSource where
  | absent : TipSource
  | unreadable : TipSource
  | malformed : TipSource
  | parsed : List (String × String) → TipSource

/-- Python dict item assignment `d[k] = v`: update in place if the key is
present, else append. -/
def pyDictSet (d : List (Int × String)) (k : Int) (v : String) :
    List (Int × String) :=
  if d.any (fun p => p.1 == k) then
    d.map (fun p => if p.1 == k then (k, v) else p)
  else
    d ++ [(k, v)]

/-- The dict comprehension on line 49:
`{int(k): v for k, v in north_tips.items() if k.isdigit()}`. -/
def parse_north_tips (north : List (String × String)) : List (Int × String) :=
  north.foldl
    (fun d kv => if pyIsDigit kv.1 then pyDictSet d (pyIntOfDigits kv.1) kv.2 else d)
    []

/-- Embedding of the module-level initialization of `MONTHLY_TIPS`
(lines 43-68): the `try` block either produces a table or lets an uncaught
exception (modelled as `Except.error` with the exception name) escape.
`FileNotFoundError`, `json.JSONDecodeError` and `ValueError` are caught and
replaced by the fallback table; an `OSError` such as `PermissionError` from
opening an unreadable file is not in the `except` tuple and propagates.  A
successfully parsed source yields `parse_north_tips` of its "north" branch,
even when that is empty.

(The surrounding module-level code has two further defects not modelled
here, noted for completeness: `from __future__ import annotations` appears
after other imports on line 10, which is a `SyntaxError` at import time, and
line 41 `MONTHLY_TIPS = dict[str, str] = {}` is a chained assignment whose
second target subscript-assigns into the type `dict`, a `TypeError` raised
before the `try` block is entered.) -/
def init_monthly_tips : TipSource → Except String (List (Int × String))
  | TipSource.absent => Except.ok MONTHLY_TIPS_FALLBACK
  | TipSource.unreadable => Except.error "PermissionError"
  | TipSource.malformed => Except.ok MONTHLY_TIPS_FALLBACK
  | TipSource.parsed north => Except.ok (parse_north_tips north)

/-- The process-wide tip table in the scenario where the tip source is
missing: what `MONTHLY_TIPS` holds after initialization with an absent
source. -/
def MONTHLY_TIPS_when_absent : List (Int × String) :=
  match init_monthly_tips TipSource.absent with
  | Except.ok t => t
  | Except.error _ => []

/-- `HEMISPHERE_SHIFT_MONTHS` (lines 70-73). -/
def HEMISPHERE_SHIFT_MONTHS : List (String × Int) :=
  [("north", 0), ("south", 6)]

/-- `adjust_month` (lines 76-82):
`shift = HEMISPHERE_SHIFT_MONTHS.get(hemisphere.lower(), 0)` then
`((month - 1 + shift) % 12) + 1`. -/
def adjust_month (month : Int) (hemisphere : String) : Int :=
  let shift := (HEMISPHERE_SHIFT_MONTHS.lookup (pyLower hemisphere)).getD 0
  ((month - 1 + shift) % 12) + 1

/-- `get_season` (lines 85-88). -/
def get_season (month : Int) (hemisphere : String) : String :=
  let adjusted_month := adjust_month month hemisphere
  (SEASONS_NH.lookup adjusted_month).getD "Unknown"

/-- `get_monthly_tip` (lines 91-107) for an explicitly given month (when the
Python `month` argument is `None` the code substitutes the current month
before this computation).  Note the lookup is in the hardcoded
`MONTHLY_TIPS_NH`, not in the loaded `MONTHLY_TIPS` table. -/
def get_monthly_tip (month : Int) (hemisphere : String) : String :=
  let adjusted_month := adjust_month month hemisphere
  (MONTHLY_TIPS_NH.lookup adjusted_month).getD
    "No specific tip available for this month."

/-- A Python value stored in the advice dict: a string or an integer. -/
inductive PyVal where
  | s : String → PyVal
  | i : Int → PyVal
  deriving DecidableEq

/-- The current date as used by `get_gardening_advice`: `today.month` and
`today.year` (a `datetime.date` always has `month` in 1..12). -/
structure PyDate where
  year : Int
  month : Int

/-- `today.strftime("%B")`: the full English month name (C locale). -/
def month_name : Int → String
  | 1 => "January"
  | 2 => "February"
  | 3 => "March"
  | 4 => "April"
  | 5 => "May"
  | 6 => "June"
  | 7 => "July"
  | 8 => "August"
  | 9 => "September"
  | 10 => "October"
  | 11 => "November"
  | 12 => "December"
  | _ => ""

/-- `get_gardening_advice` (lines 110-132), with the ambient
`datetime.date.today()` passed explicitly.  The returned Python dict is
embedded as the association list of its literal entries, in source order. -/
def get_gardening_advice (today : PyDate) (hemisphere : String) :
    List (String × PyVal) :=
  let current_month := today.month
  [("month", PyVal.s (month_name today.month)),
   ("month_number", PyVal.i current_month),
   ("season", PyVal.s (get_season current_month hemisphere)),
   ("tip", PyVal.s (get_monthly_tip current_month hemisphere)),
   ("hemisphere", PyVal.s (pyCapitalize hemisphere)),
   ("year", PyVal.i today.year)]

/-! ## Helper lemmas -/

/-- The effective month computed by `adjust_month` always lies in 1..12,
for every integer month and every hemisphere string. -/
lemma adjust_month_bounds (m : Int) (h : String) :
    1 ≤ adjust_month m h ∧ adjust_month m h ≤ 12 := by
  unfold adjust_month
  dsimp only
  have h1 : 0 ≤ (m - 1 + ((HEMISPHERE_SHIFT_MONTHS.lookup (pyLower h)).getD 0)) % 12 :=
    Int.emod_nonneg _ (by norm_num)
  have h2 : (m - 1 + ((HEMISPHERE_SHIFT_MONTHS.lookup (pyLower h)).getD 0)) % 12 < 12 :=
    Int.emod_lt_of_pos _ (by norm_num)
  omega

/-- The season table covers every month in 1..12 with one of the four
season names, so the `getD` default is never taken there. -/
lemma seasons_lookup_total (a : Int) (h1 : 1 ≤ a) (h2 : a ≤ 12) :
    (SEASONS_NH.lookup a).getD "Unknown" ≠ "Unknown" ∧
    (SEASONS_NH.lookup a).getD "Unknown" ∈ ["Winter", "Spring", "Summer", "Autumn"] := by
  interval_cases a <;> decide

/-- The hardcoded tip table covers every month in 1..12: the lookup hits,
its value is one of the twelve tip strings, and it differs from the
default message. -/
lemma tips_lookup_total (a : Int) (h1 : 1 ≤ a) (h2 : a ≤ 12) :
    MONTHLY_TIPS_NH.lookup a =
      some ((MONTHLY_TIPS_NH.lookup a).getD "No specific tip available for this month.") ∧
    (MONTHLY_TIPS_NH.lookup a).getD "No specific tip available for this month."
      ∈ MONTHLY_TIPS_NH.map Prod.snd ∧
    (MONTHLY_TIPS_NH.lookup a).getD "No specific tip available for this month."
      ≠ "No specific tip available for this month." := by
  interval_cases a <;> decide

/-! ## Claim theorems -/

/-- C3: for every integer month `m` (including negative and greater than 12)
and every hemisphere in \x7bnorth, south\x7d, `adjust_month m h` is an
integer in [1,12], computed as `((m - 1 + shift) % 12) + 1` with a
non-negative mod result; `adjust_month` is total (a Lean function on all of
`Int × String`) and signals no error. -/
theorem adjust_month_total_in_range (m : Int) (h : String)
    (hh : h = "north" ∨ h = "south") :
    (1 ≤ adjust_month m h ∧ adjust_month m h ≤ 12) ∧
    adjust_month m h =
      ((m - 1 + (HEMISPHERE_SHIFT_MONTHS.lookup (pyLower h)).getD 0) % 12) + 1 ∧
    0 ≤ (m - 1 + (HEMISPHERE_SHIFT_MONTHS.lookup (pyLower h)).getD 0) % 12 := by
  refine ⟨adjust_month_bounds m h, rfl, ?_⟩
  exact Int.emod_nonneg _ (by norm_num)

/-- Witness for C3 at month -5, hemisphere "south". -/
theorem adjust_month_total_in_range_witness :
    ((1 ≤ adjust_month (-5) "south" ∧ adjust_month (-5) "south" ≤ 12) ∧
      adjust_month (-5) "south" =
        (((-5) - 1 + (HEMISPHERE_SHIFT_MONTHS.lookup (pyLower "south")).getD 0) % 12) + 1 ∧
      0 ≤ ((-5) - 1 + (HEMISPHERE_SHIFT_MONTHS.lookup (pyLower "south")).getD 0) % 12) :=
  adjust_month_total_in_range (-5) "south" (Or.inr rfl)

/-- C4: for every month in [1,12] and either valid hemisphere, `get_season`
returns one of the four season names and never the defensive "Unknown"
fallback value. -/
theorem get_season_never_unknown (m : Int) (h : String)
    (h1 : 1 ≤ m) (h2 : m ≤ 12) (hh : h = "north" ∨ h = "south") :
    get_season m h ≠ "Unknown" ∧
    get_season m h ∈ ["Winter", "Spring", "Summer", "Autumn"] := by
  obtain ⟨b1, b2⟩ := adjust_month_bounds m h
  have hs := seasons_lookup_total (adjust_month m h) b1 b2
  simpa [get_season] using hs

/-- Witness for C4 at month 1, hemisphere "north". -/
theorem get_season_never_unknown_witness :
    get_season 1 "north" ≠ "Unknown" ∧
    get_season 1 "north" ∈ ["Winter", "Spring", "Summer", "Autumn"] :=
  get_season_never_unknown 1 "north" (by decide) (by decide) (Or.inl rfl)

/-- C7: for every month in [1,12], applying the southern-hemisphere shift
twice with `adjust_month` returns the original month. -/
theorem adjust_month_south_involution (m : Int) (h1 : 1 ≤ m) (h2 : m ≤ 12) :
    adjust_month (adjust_month m "south") "south" = m := by
  interval_cases m <;> decide

/-- Witness for C7 at month 3. -/
theorem adjust_month_south_involution_witness :
    adjust_month (adjust_month 3 "south") "south" = 3 :=
  adjust_month_south_involution 3 (by decide) (by decide)

/-- C8: for every month in [1,12], the southern-hemisphere season equals the
northern-hemisphere season of the shifted month. -/
theorem get_season_south_offset (m : Int) (h1 : 1 ≤ m) (h2 : m ≤ 12) :
    get_season m "south" = get_season (adjust_month m "south") "north" := by
  interval_cases m <;> decide

/-- Witness for C8 at month 1. -/
theorem get_season_south_offset_witness :
    get_season 1 "south" = get_season (adjust_month 1 "south") "north" :=
  get_season_south_offset 1 (by decide) (by decide)

/-- C9: for every hemisphere string that lower-cases to something other than
"north" or "south", the shift lookup misses and defaults to 0, so
`adjust_month`, `get_season` and `get_monthly_tip` behave exactly as for
"north", without failing. -/
theorem unrecognized_hemisphere_defaults_north (m : Int) (h : String)
    (hn : pyLower h ≠ "north") (hs : pyLower h ≠ "south") :
    adjust_month m h = adjust_month m "north" ∧
    get_season m h = get_season m "north" ∧
    get_monthly_tip m h = get_monthly_tip m "north" := by
  have e1 : (pyLower h == "north") = false := beq_eq_false_iff_ne.mpr hn
  have e2 : (pyLower h == "south") = false := beq_eq_false_iff_ne.mpr hs
  have e : HEMISPHERE_SHIFT_MONTHS.lookup (pyLower h) = none := by
    simp [HEMISPHERE_SHIFT_MONTHS, List.lookup, e1, e2]
  have en : HEMISPHERE_SHIFT_MONTHS.lookup (pyLower "north") = some 0 := by decide
  have ea : adjust_month m h = adjust_month m "north" := by
    simp [adjust_month, e, en]
  refine ⟨ea, ?_, ?_⟩
  · simp [get_season, ea]
  · simp [get_monthly_tip, ea]

/-- Witness for C9 at month 5, hemisphere "East". -/
theorem unrecognized_hemisphere_defaults_north_witness :
    (pyLower "East" ≠ "north" ∧ pyLower "East" ≠ "south") ∧
    (adjust_month 5 "East" = adjust_month 5 "north" ∧
      get_season 5 "East" = get_season 5 "north" ∧
      get_monthly_tip 5 "East" = get_monthly_tip 5 "north") :=
  ⟨⟨by decide, by decide⟩,
    unrecognized_hemisphere_defaults_north 5 "East" (by decide) (by decide)⟩

/-- C10: for every integer month and every hemisphere string,
`get_monthly_tip` returns the `MONTHLY_TIPS_NH` entry of the effective
month — one of the twelve hardcoded tip strings — and never the
"No specific tip available for this month." default, which is unreachable
because `MONTHLY_TIPS_NH` covers every value `adjust_month` can produce. -/
theorem get_monthly_tip_always_nh_tip (m : Int) (h : String) :
    MONTHLY_TIPS_NH.lookup (adjust_month m h) = some (get_monthly_tip m h) ∧
    get_monthly_tip m h ∈ MONTHLY_TIPS_NH.map Prod.snd ∧
    get_monthly_tip m h ≠ "No specific tip available for this month." := by
  obtain ⟨b1, b2⟩ := adjust_month_bounds m h
  have ht := tips_lookup_total (adjust_month m h) b1 b2
  simpa [get_monthly_tip] using ht

/-- C1 counterexample: with a present tip source whose "north" branch maps
month 7 to a custom tip, the process-wide tip table has an entry for month 7,
the effective month of (7, "north") is 7, and yet `get_monthly_tip 7 "north"`
does not return the table entry: it reads the hardcoded `MONTHLY_TIPS_NH`
instead of the loaded table. -/
theorem get_monthly_tip_ignores_loaded_table_cex :
    init_monthly_tips (TipSource.parsed [("7", "custom")]) =
      Except.ok [((7 : Int), "custom")] ∧
    adjust_month 7 "north" = 7 ∧
    get_monthly_tip 7 "north" ≠ "custom" := by
  exact ⟨rfl, by decide, by decide⟩

/-- C1 (amended): in the missing-source scenario the tip table equals the
built-in fallback, which is entry-for-entry identical to `MONTHLY_TIPS_NH`,
so for every month whose effective month has an entry in that table,
`get_monthly_tip` does return the tip table entry of the effective month. -/
theorem get_monthly_tip_matches_fallback_table (m : Int) (h : String) (t : String)
    (ht : MONTHLY_TIPS_when_absent.lookup (adjust_month m h) = some t) :
    get_monthly_tip m h = t := by
  have e : MONTHLY_TIPS_when_absent = MONTHLY_TIPS_NH := by decide
  rw [e] at ht
  simp [get_monthly_tip, ht]

/-- Witness for the amended C1 at month 7, hemisphere "north". -/
theorem get_monthly_tip_matches_fallback_table_witness :
    MONTHLY_TIPS_when_absent.lookup (adjust_month 7 "north") =
      some "Deadhead flowers regularly. Watch for pests and fungal issues in humidity." ∧
    get_monthly_tip 7 "north" =
      "Deadhead flowers regularly. Watch for pests and fungal issues in humidity." :=
  ⟨by decide,
    get_monthly_tip_matches_fallback_table 7 "north"
      "Deadhead flowers regularly. Watch for pests and fungal issues in humidity."
      (by decide)⟩

/-- C2: evaluation of the tip-table initialization at its failure modes.
An absent or malformed source is caught and replaced by the fallback table,
but an unreadable source raises an exception that the `except` clause does
not catch and so propagates, and a source that parses to an empty "north"
table leaves the tip table empty rather than applying the non-empty
fallback — contradicting the claim that initialization always completes
with the table populated from the fallback set.  (Independently, the module
cannot even be imported: line 10 places `from __future__ import annotations`
after other statements, a Python syntax error, and line 41 chain-assigns
into a subscript of the type `dict`, a `TypeError` raised before the `try`
block.) -/
theorem init_monthly_tips_failure_modes :
    init_monthly_tips TipSource.absent = Except.ok MONTHLY_TIPS_FALLBACK ∧
    init_monthly_tips TipSource.malformed = Except.ok MONTHLY_TIPS_FALLBACK ∧
    init_monthly_tips TipSource.unreadable = Except.error "PermissionError" ∧
    init_monthly_tips (TipSource.parsed []) = Except.ok [] ∧
    MONTHLY_TIPS_FALLBACK ≠ [] := by
  exact ⟨rfl, rfl, rfl, rfl, by decide⟩

/-- C5 counterexample: with a loaded tip table covering only month 1, the
tip table lacks an entry for the effective month of (7, "north"), yet
`get_monthly_tip 7 "north"` returns the hardcoded July tip — not a
placeholder naming the unmatched effective month.  Moreover the default
message in the code is a fixed string containing no digit, so even where it
is returned it names no month. -/
theorem missing_table_entry_returns_nh_tip_cex :
    init_monthly_tips (TipSource.parsed [("1", "only january")]) =
      Except.ok [((1 : Int), "only january")] ∧
    [((1 : Int), "only january")].lookup (adjust_month 7 "north") =
      (none : Option String) ∧
    get_monthly_tip 7 "north" =
      "Deadhead flowers regularly. Watch for pests and fungal issues in humidity." ∧
    ("No specific tip available for this month.".data.any Char.isDigit) = false := by
  exact ⟨rfl, by decide, by decide, by decide⟩

/-- C5 (amended): when the loaded tip table lacks an entry for the effective
month, `get_monthly_tip` still does not fail: it ignores the loaded table
and returns the `MONTHLY_TIPS_NH` entry of the effective month, one of the
twelve hardcoded tips; the deterministic default message exists in the code
but is only returned if `MONTHLY_TIPS_NH` itself missed (which cannot
happen), and it does not name the month. -/
theorem get_monthly_tip_missing_entry_no_failure (tbl : List (Int × String))
    (m : Int) (h : String)
    (ht : tbl.lookup (adjust_month m h) = none) :
    get_monthly_tip m h =
      (MONTHLY_TIPS_NH.lookup (adjust_month m h)).getD
        "No specific tip available for this month." ∧
    get_monthly_tip m h ∈ MONTHLY_TIPS_NH.map Prod.snd ∧
    ("No specific tip available for this month.".data.any Char.isDigit) = false := by
  obtain ⟨b1, b2⟩ := adjust_month_bounds m h
  have hm := tips_lookup_total (adjust_month m h) b1 b2
  refine ⟨rfl, ?_, by decide⟩
  simpa [get_monthly_tip] using hm.2.1

/-- Witness for the amended C5: loaded table covering only month 1, queried
at month 7, hemisphere "north". -/
theorem get_monthly_tip_missing_entry_no_failure_witness :
    [((1 : Int), "only january")].lookup (adjust_month 7 "north") =
      (none : Option String) ∧
    (get_monthly_tip 7 "north" =
        (MONTHLY_TIPS_NH.lookup (adjust_month 7 "north")).getD
          "No specific tip available for this month." ∧
      get_monthly_tip 7 "north" ∈ MONTHLY_TIPS_NH.map Prod.snd ∧
      ("No specific tip available for this month.".data.any Char.isDigit) = false) :=
  ⟨by decide,
    get_monthly_tip_missing_entry_no_failure [((1 : Int), "only january")] 7 "north"
      (by decide)⟩

/-- C6 counterexample: at a concrete date and hemisphere, the advice record
returned by `get_gardening_advice` has no "effective_month_number" entry
(and its month-name entry is under the key "month", not "month_name"). -/
theorem advice_record_missing_effective_month_cex :
    (get_gardening_advice ⟨2026, 2⟩ "south").lookup "effective_month_number" = none ∧
    (get_gardening_advice ⟨2026, 2⟩ "south").lookup "month_name" = none := by
  exact ⟨by decide, by decide⟩

/-- C6 (amended): for every date and hemisphere the advice record contains
exactly the fields month (the month name), month_number, season (from
`get_season`), tip (from `get_monthly_tip`), hemisphere (the capitalized
input) and year — and no effective-month field. -/
theorem get_gardening_advice_fields (d : PyDate) (h : String) :
    (get_gardening_advice d h).lookup "month" = some (PyVal.s (month_name d.month)) ∧
    (get_gardening_advice d h).lookup "month_number" = some (PyVal.i d.month) ∧
    (get_gardening_advice d h).lookup "season" = some (PyVal.s (get_season d.month h)) ∧
    (get_gardening_advice d h).lookup "tip" = some (PyVal.s (get_monthly_tip d.month h)) ∧
    (get_gardening_advice d h).lookup "hemisphere" = some (PyVal.s (pyCapitalize h)) ∧
    (get_gardening_advice d h).lookup "year" = some (PyVal.i d.year) ∧
    (get_gardening_advice d h).lookup "effective_month_number" = none ∧
    (get_gardening_advice d h).lookup "month_name" = none := by
  exact ⟨rfl, rfl, rfl, rfl, rfl, rfl, rfl, rfl⟩

end GardenAdvice
